import Mathlib

/-!
Verification of the knowledge-graph storage and retrieval engine of the
`bonnet` CLI (src/bonnet/database.py) against its natural-language
specification.

The SQLite-backed state is embedded shallowly as a `DB` structure holding the
five tables (`entities`, `attributes`, `files`, `nodes`, `edges`) as lists of
rows, plus a logical clock standing for the monotone `created_at` timestamps.
Each Python function of `database.py` is translated to a pure Lean function on
`DB`.  Randomly generated identifiers (uuid hex suffixes) are passed in as
explicit parameters.  A Python function that commits several transactions is
modelled so that each commit produces an intermediate observable state: the
result of a mutating operation is the final committed state paired with
`Option String` (`some msg` when the Python code raises `ValueError msg` /
an sqlite integrity error after its earlier transactions have committed).
-/

namespace Bonnet

/-- Row of the `entities` table (id, name, short_name nullable, node_id). -/
structure EntityRec where
  id : String
  name : String
  short_name : Option String
  node_id : String
deriving DecidableEq

/-- Row of the `attributes` table.  The SQL column `type` is called `atype`
here because `type` is a Lean keyword; `subject` and `detail` are nullable. -/
structure AttrRec where
  id : String
  atype : String
  subject : Option String
  detail : Option String
  node_id : String
deriving DecidableEq

/-- Row of the `files` table. -/
structure FileRec where
  id : String
  file_path : String
  description : Option String
  content : Option String
  include_content : Bool
  node_id : String
deriving DecidableEq

/-- Row of the `nodes` table; `created_at` is the logical timestamp. -/
structure Node where
  id : String
  table_name : String
  record_id : String
  searchable_content : String
  created_at : Nat
deriving DecidableEq

/-- Row of the `edges` table. -/
structure Edge where
  id : String
  from_node_id : String
  to_node_id : String
  edge_type : String
  searchable_content : String
deriving DecidableEq

/-- The committed database state: the five tables plus the logical clock used
for `created_at` values (strictly increasing across node inserts, standing in
for `CURRENT_TIMESTAMP`). -/
structure DB where
  entities : List EntityRec
  attributes : List AttrRec
  files : List FileRec
  nodes : List Node
  edges : List Edge
  clock : Nat
deriving DecidableEq

/-- The `record_data` dict passed for an entity: keys `name` and `short_name`;
`none` stands for an absent key or a Python `None` value (both are falsy and
`.get` treats an absent key as missing). -/
structure EntityData where
  name : Option String
  short_name : Option String
deriving DecidableEq

/-- The `record_data` dict passed for an attribute: keys `type`, `subject`,
`detail`. -/
structure AttrData where
  atype : Option String
  subject : Option String
  detail : Option String
deriving DecidableEq

/-- The `record_data` dict passed for a file: keys `file_path`,
`description`. -/
structure FileData where
  file_path : Option String
  description : Option String
deriving DecidableEq

/-- The repeated Python pattern
`if record_data.get(k): content_parts.append(record_data[k])` of the three
builders: append the value only when it is truthy (present, non-`None`,
nonempty). -/
def appendTruthy (parts : List String) (o : Option String) : List String :=
  match o with
  | some s => if s = "" then parts else parts ++ [s]
  | none => parts

/-- `build_entity_searchable_content` (database.py:196-202): starts from
`[record_data.get('name', '')]` and appends `short_name` only when it is
truthy; joins with single spaces. -/
def build_entity_searchable_content (d : EntityData) : String :=
  let parts : List String := [d.name.getD ""]
  let parts := appendTruthy parts d.short_name
  String.intercalate " " parts

/-- `build_attribute_searchable_content` (database.py:204-212). -/
def build_attribute_searchable_content (d : AttrData) : String :=
  let parts : List String := [d.atype.getD ""]
  let parts := appendTruthy parts d.subject
  let parts := appendTruthy parts d.detail
  String.intercalate " " parts

/-- `build_file_searchable_content` (database.py:214-220). -/
def build_file_searchable_content (d : FileData) : String :=
  let parts : List String := [d.file_path.getD ""]
  let parts := appendTruthy parts d.description
  String.intercalate " " parts

/-- Tagged record data, dispatched on by the `SEARCHABLE_BUILDERS` registry. -/
inductive RecData where
  | entity : EntityData → RecData
  | attr : AttrData → RecData
  | file : FileData → RecData
deriving DecidableEq

/-- The `SEARCHABLE_BUILDERS` registry (database.py:15, populated by the
`@searchable_builder` decorators): maps a table name to its builder; `none`
when no builder is registered for the table. -/
def buildSearchable : String → RecData → Option String
  | "entities", .entity d => some (build_entity_searchable_content d)
  | "attributes", .attr d => some (build_attribute_searchable_content d)
  | "files", .file d => some (build_file_searchable_content d)
  | _, _ => none

/-- `create_node` (database.py:222-239): looks up the registered builder,
computes the searchable content, and inserts the node row in its own
transaction (committed on success, rolled back leaving `db` unchanged when the
primary-key insert fails).  The random `N-xxxxxxxx` id is the `node_id`
parameter. -/
def create_node (db : DB) (table_name record_id : String) (rd : RecData)
    (node_id : String) : Except String (DB × String) :=
  match buildSearchable table_name rd with
  | none => .error ("No searchable builder registered for table: " ++ table_name)
  | some content =>
    if db.nodes.any (fun n => n.id == node_id) then
      .error "UNIQUE constraint failed: nodes.id"
    else
      .ok ({ db with
              nodes := db.nodes ++ [⟨node_id, table_name, record_id, content, db.clock⟩],
              clock := db.clock + 1 }, node_id)

/-- `store_entity` (database.py:241-262): first `create_node` runs and COMMITS
its own transaction; then a second transaction checks for a duplicate entity
id (raising `ValueError` if found, which rolls back only the second
transaction) and inserts the entity row.  The returned state is the committed
state when the raised error (if any) propagates to the caller. -/
def store_entity (db : DB) (e_id entity_name : String) (short_name : Option String)
    (node_uuid : String) : DB × Option String :=
  match create_node db "entities" e_id (.entity ⟨some entity_name, short_name⟩) node_uuid with
  | .error e => (db, some e)
  | .ok (db1, node_id) =>
    if db1.entities.any (fun r => r.id == e_id) then
      (db1, some ("Entity ID " ++ e_id ++ " already exists"))
    else
      ({ db1 with entities := db1.entities ++ [⟨e_id, entity_name, short_name, node_id⟩] }, none)

/-- `store_file` (database.py:736-761): same two-transaction shape as
`store_entity`; the node data uses `description or ''`. -/
def store_file (db : DB) (file_id file_path : String) (description content : Option String)
    (include_content : Bool) (node_uuid : String) : DB × Option String :=
  match create_node db "files" file_id
      (.file ⟨some file_path, some (description.getD "")⟩) node_uuid with
  | .error e => (db, some e)
  | .ok (db1, node_id) =>
    if db1.files.any (fun r => r.id == file_id) then
      (db1, some ("File ID " ++ file_id ++ " already exists"))
    else
      ({ db1 with files := db1.files ++
          [⟨file_id, file_path, description, content, include_content, node_id⟩] }, none)

/-- `store_attribute` (database.py:292-329): builds the fresh id
`attr_id ++ "-" ++ suffix` (uuid hex suffix), creates and commits the node,
then in a second transaction inserts the attribute row and, only when an
entity with id `attr_id` exists, also inserts a `has_attribute` edge from the
entity node to the attribute node.  When no such entity exists the attribute
row is committed with no edge.  A failure inside the second transaction rolls
back both the attribute row and the edge, leaving the node committed. -/
def store_attribute (db : DB) (attr_id attr_type subject detail : String)
    (suffix node_uuid edge_uuid : String) : DB × Option String :=
  let unique_attr_id := attr_id ++ "-" ++ suffix
  match create_node db "attributes" unique_attr_id
      (.attr ⟨some attr_type, some subject, some detail⟩) node_uuid with
  | .error e => (db, some e)
  | .ok (db1, node_id) =>
    if db1.attributes.any (fun a => a.id == unique_attr_id) then
      (db1, some "UNIQUE constraint failed: attributes.id")
    else
      let db2 : DB := { db1 with attributes := db1.attributes ++
          [⟨unique_attr_id, attr_type, some subject, some detail, node_id⟩] }
      match db2.entities.find? (fun r => r.id == attr_id) with
      | some ent =>
        if db2.edges.any (fun e => e.id == edge_uuid) then
          (db1, some "UNIQUE constraint failed: edges.id")
        else
          ({ db2 with edges := db2.edges ++
              [⟨edge_uuid, ent.node_id, node_id, "has_attribute",
                attr_type ++ ": " ++ subject⟩] }, none)
      | none => (db2, none)

/-- `create_edge` (database.py:442-454): generates the random edge id (the
`edge_uuid` parameter) and inserts the edge row, with NO check that
`from_node_id` or `to_node_id` exist in the nodes table (the declared foreign
keys are not enforced: the code never issues `PRAGMA foreign_keys = ON`). -/
def create_edge (db : DB) (from_node_id to_node_id edge_type searchable_content : String)
    (edge_uuid : String) : DB × Option String :=
  if db.edges.any (fun e => e.id == edge_uuid) then
    (db, some "UNIQUE constraint failed: edges.id")
  else
    ({ db with edges := db.edges ++
        [⟨edge_uuid, from_node_id, to_node_id, edge_type, searchable_content⟩] }, none)

/-- Output row shape produced by `_get_record_data` (database.py:1035-1093):
the Python dicts share keys `type` (here `rtype`), `id`, `name`, `display`,
`searchable_content`; only entity rows carry `short_name`. -/
structure RecordOut where
  rtype : String
  id : String
  name : String
  short_name : Option String
  display : String
  searchable_content : String
deriving DecidableEq

/-- `_get_record_data` (database.py:1035-1093): resolves a node back-pointer
`(table_name, record_id)` to the typed record, building the human `display`
string; returns the empty list when the record row is missing or the table is
unknown.  `WHERE id = ?` with `fetchone` is the first matching row. -/
def get_record_data (db : DB) (table_name record_id searchable_content : String) :
    List RecordOut :=
  if table_name = "entities" then
    match db.entities.find? (fun r => r.id == record_id) with
    | some r =>
      let display := r.name ++
        (match r.short_name with
         | some s => if s = "" then "" else " (" ++ s ++ ")"
         | none => "")
      [⟨"entity", r.id, r.name, r.short_name, display, searchable_content⟩]
    | none => []
  else if table_name = "attributes" then
    match db.attributes.find? (fun a => a.id == record_id) with
    | some a =>
      let base :=
        match a.subject with
        | some s => if s = "" then a.atype else a.atype ++ ": " ++ s
        | none => a.atype
      let display :=
        match a.detail with
        | some s => if s = "" then base else base ++ " - " ++ s
        | none => base
      [⟨"attribute", a.id, display, none, display, searchable_content⟩]
    | none => []
  else if table_name = "files" then
    match db.files.find? (fun f => f.id == record_id) with
    | some f =>
      let display := f.file_path ++
        (match f.description with
         | some s => if s = "" then "" else " (" ++ s ++ ")"
         | none => "")
      [⟨"file", f.id, display, none, display, searchable_content⟩]
    | none => []
  else []

/-- Recency order on node rows: `a` is at least as recent as `b`
(`ORDER BY created_at DESC`). -/
def recGE (a b : Node) : Prop := b.created_at ≤ a.created_at

instance : DecidableRel recGE := fun a b => Nat.decLe b.created_at a.created_at

instance : IsTotal Node recGE := ⟨fun a b => Nat.le_total b.created_at a.created_at⟩

instance : IsTrans Node recGE :=
  ⟨fun _ _ _ hab hbc => Nat.le_trans hbc hab⟩

/-- `get_recent_records` (database.py:955-983): the `limit` most recent node
rows (`ORDER BY created_at DESC LIMIT ?`), each resolved through
`_get_record_data`. -/
def get_recent_records (db : DB) (limit : Nat) : List RecordOut :=
  ((List.insertionSort recGE db.nodes).take limit).flatMap
    (fun n => get_record_data db n.table_name n.record_id n.searchable_content)

/-- The Python blank test `not query or not query.strip()` of
`search_records` (database.py:852): true exactly when the query is empty or
consists only of whitespace characters. -/
def isBlank (s : String) : Bool :=
  s.data.all (fun c => c.isWhitespace)

/-- Splits a character list into the maximal nonempty chunks between spaces
(`acc` holds the characters of the current chunk, reversed). -/
def tokenizeAux : List Char → List Char → List String
  | [], acc => if acc = [] then [] else [String.mk acc.reverse]
  | c :: cs, acc =>
    if c = ' ' then
      if acc = [] then tokenizeAux cs []
      else String.mk acc.reverse :: tokenizeAux cs []
    else tokenizeAux cs (c :: acc)

/-- Model of the SQLite FTS5 `unicode61` tokenizer (external library code):
the maximal nonempty runs of non-space characters.  Case folding and
punctuation handling are omitted: the model is faithful for content made of
space-separated lowercase alphanumeric words, which covers every query and
every searchable content used in the theorems below. -/
def ftsTokens (s : String) : List String := tokenizeAux s.data []

/-- Model of an FTS5 `MATCH` of a plain multi-word query against a row of the
`nodes_fts` index (external library code): the row matches when every query
token occurs among the tokens of its two indexed columns `record_id` and
`searchable_content`.  Plain-word queries never raise the
`sqlite3.OperationalError` that would trigger the LIKE fallback of
`search_records`, so that fallback branch is unreachable here. -/
def ftsMatchNode (query : String) (n : Node) : Bool :=
  let indexed := ftsTokens n.record_id ++ ftsTokens n.searchable_content
  (ftsTokens query).all (fun t => indexed.contains t)

/-- `search_records` (database.py:835-886): an empty or whitespace-only query
falls back to `get_recent_records 10`; otherwise the FTS match runs over the
nodes index (rows come back in rowid = insertion order) and each matching node
is resolved through `_get_record_data`. -/
def search_records (db : DB) (query : String) : List RecordOut :=
  if isBlank query then
    get_recent_records db 10
  else
    (db.nodes.filter (fun n => ftsMatchNode query n)).flatMap
      (fun n => get_record_data db n.table_name n.record_id n.searchable_content)

/-- The neighbor ids of `v`: targets of outgoing edges followed by sources of
incoming edges (database.py:398-414, the two SELECTs of `get_related_nodes`). -/
def neighborsList (db : DB) (v : String) : List String :=
  ((db.edges.filter (fun e => e.from_node_id == v)).map (fun e => e.to_node_id)) ++
  ((db.edges.filter (fun e => e.to_node_id == v)).map (fun e => e.from_node_id))

/-- Neighbor ids of `v` as a finite set. -/
def neighborsF (db : DB) (v : String) : Finset String :=
  (neighborsList db v).toFinset

/-- Neighbors of a whole set of node ids. -/
def setNeighbors (db : DB) (s : Finset String) : Finset String :=
  s.biUnion (neighborsF db)

/-- One iteration of the `for depth in range(max_depth)` loop of
`get_related_nodes` (database.py:390-416) acting on the loop state
`(related_nodes, visited, current_level)`: every node of the current level not
yet visited is expanded; its neighbors are accumulated into `related_nodes`
and form the next level. -/
def levelStep (db : DB) (st : Finset String × Finset String × Finset String) :
    Finset String × Finset String × Finset String :=
  let toExpand := st.2.2 \ st.2.1
  let nbrs := setNeighbors db toExpand
  (st.1 ∪ nbrs, st.2.1 ∪ toExpand, nbrs)

/-- The loop state of `get_related_nodes` after `k` iterations, starting from
`related_nodes = ∅`, `visited = ∅`, `current_level = {node_id}`
(database.py:386-388). -/
def loopState (db : DB) (seed : String) : Nat → Finset String × Finset String × Finset String
  | 0 => ((∅ : Finset String), (∅ : Finset String), {seed})
  | k + 1 => levelStep db (loopState db seed k)

/-- The `related_nodes` set accumulated by `get_related_nodes` after the full
`max_depth` iterations. -/
def relatedSet (db : DB) (seed : String) (max_depth : Nat) : Finset String :=
  (loopState db seed max_depth).1

/-- The set of node ids expanded during iteration `k` of the loop
(`current_level` minus `visited` at the start of that iteration). -/
def expandedAt (db : DB) (seed : String) (k : Nat) : Finset String :=
  (loopState db seed k).2.2 \ (loopState db seed k).2.1

/-- `get_related_nodes` (database.py:380-440): runs the bounded traversal and
returns the node rows whose id landed in `related_nodes`
(`SELECT ... WHERE id IN (...)`, rows in table order). -/
def get_related_nodes (db : DB) (node_id : String) (max_depth : Nat) : List Node :=
  db.nodes.filter (fun n => decide (n.id ∈ relatedSet db node_id max_depth))

/-- The ball of radius `d` around `seed` in the undirected view of the edge
multigraph: node ids reachable in at most `d` hops following edges in either
direction.  This follows the specification words for the traversal engine. -/
def ball (db : DB) (seed : String) : Nat → Finset String
  | 0 => {seed}
  | d + 1 => ball db seed d ∪ setNeighbors db (ball db seed d)

/-- The related set that the traversal actually computes, in closed form: for
depth `D ≥ 1` it is the set of all neighbors of nodes within `D - 1` hops of
the seed (which contains every node at distance `1..D`, and the seed itself
whenever an edge leads back to it); depth `0` gives the empty set. -/
def relatedSpec (db : DB) (seed : String) : Nat → Finset String
  | 0 => (∅ : Finset String)
  | d + 1 => setNeighbors db (ball db seed d)

/-- The related set as the specification claims it: nodes reachable within
`D` hops, excluding the seed itself. -/
def claimRelated (db : DB) (seed : String) (D : Nat) : Finset String :=
  ball db seed D \ {seed}

/-- Order on nullable subjects mirroring SQLite `ORDER BY subject` with its
NULLs-first ascending rule. -/
def subjLE : Option String → Option String → Prop
  | none, _ => True
  | some _, none => False
  | some x, some y => x ≤ y

instance : ∀ x y : Option String, Decidable (subjLE x y)
  | none, _ => isTrue trivial
  | some _, none => isFalse id
  | some x, some y => inferInstanceAs (Decidable (x ≤ y))

/-- Row order of `SELECT ... FROM attributes ORDER BY type, subject`
(database.py:547-550): by `type`, ties broken by `subject`. -/
def attrLE (a b : AttrRec) : Prop :=
  a.atype < b.atype ∨ (a.atype = b.atype ∧ subjLE a.subject b.subject)

instance : DecidableRel attrLE := fun a b => by
  unfold attrLE
  infer_instance

theorem subjLE_total (x y : Option String) : subjLE x y ∨ subjLE y x := by
  cases x with
  | none => exact Or.inl trivial
  | some a =>
    cases y with
    | none => exact Or.inr trivial
    | some b => exact le_total a b

theorem subjLE_trans {x y z : Option String} (h1 : subjLE x y) (h2 : subjLE y z) :
    subjLE x z := by
  cases x with
  | none => trivial
  | some a =>
    cases y with
    | none => exact absurd h1 id
    | some b =>
      cases z with
      | none => exact absurd h2 id
      | some c => exact le_trans (α := String) h1 h2

instance : IsTotal AttrRec attrLE := by
  constructor
  intro a b
  rcases lt_trichotomy a.atype b.atype with h | h | h
  · exact Or.inl (Or.inl h)
  · rcases subjLE_total a.subject b.subject with hs | hs
    · exact Or.inl (Or.inr ⟨h, hs⟩)
    · exact Or.inr (Or.inr ⟨h.symm, hs⟩)
  · exact Or.inr (Or.inl h)

instance : IsTrans AttrRec attrLE := by
  constructor
  intro a b c hab hbc
  rcases hab with hab | ⟨hab, sab⟩
  · rcases hbc with hbc | ⟨hbc, _⟩
    · exact Or.inl (lt_trans hab hbc)
    · exact Or.inl (hbc ▸ hab)
  · rcases hbc with hbc | ⟨hbc, sbc⟩
    · exact Or.inl (hab ▸ hbc)
    · exact Or.inr ⟨hab.trans hbc, subjLE_trans sab sbc⟩

/-- Result shape of `get_entity_context` (database.py:565-571). -/
structure EntityContext where
  e_id : String
  entity_name : String
  entity_short_name : Option String
  entity_node_id : String
  attributes : List AttrRec
deriving DecidableEq

/-- `get_entity_context` (database.py:529-571): raises `ValueError` when no
entity has the given id; otherwise returns the entity header together with
EVERY row of the `attributes` table (the SELECT at database.py:547-550 has no
WHERE clause), ordered by `type` then `subject`. -/
def get_entity_context (db : DB) (e_id : String) : Except String EntityContext :=
  match db.entities.find? (fun r => r.id == e_id) with
  | none => .error ("Entity ID " ++ e_id ++ " not found")
  | some ent =>
    .ok ⟨e_id, ent.name, ent.short_name, ent.node_id,
         List.insertionSort attrLE db.attributes⟩

/-! ## Concrete states used by counterexamples and witnesses -/

/-- The freshly initialized database: every table empty. -/
def db0 : DB := ⟨[], [], [], [], [], 0⟩

/-- State after successfully storing entity `E1` named `alpha`. -/
def dbE1 : DB := (store_entity db0 "E1" "alpha" none "N-1").1

/-! ## C1: edge creation and dangling endpoints -/

/-- Claim C1, counterexample: on the empty database (so neither node id `A`
nor `B` exists), `create_edge` succeeds (no error, in particular no
`DanglingReference`) and the edge row persists — contradicting the claim that
edge creation fails and no edge row persists when an endpoint is missing. -/
theorem create_edge_dangling_persists_cex :
    db0.nodes = [] ∧
    (create_edge db0 "A" "B" "references" "" "E-1").2 = none ∧
    (create_edge db0 "A" "B" "references" "" "E-1").1.edges =
      [⟨"E-1", "A", "B", "references", ""⟩] :=
  ⟨rfl, rfl, rfl⟩

/-- Claim C1, amended: `create_edge` performs no existence check on its
endpoint node ids (and SQLite foreign keys are not enabled): given a fresh
edge id it always succeeds, and the edge row persists even when the endpoints
do not exist in the nodes table. -/
theorem create_edge_succeeds_without_endpoints (db : DB)
    (f t ty sc eid : String)
    (hfresh : db.edges.any (fun e => e.id == eid) = false) :
    (create_edge db f t ty sc eid).2 = none ∧
    (create_edge db f t ty sc eid).1.edges = db.edges ++ [⟨eid, f, t, ty, sc⟩] := by
  simp [create_edge, hfresh]

/-- Witness for the amended C1 theorem at a concrete input. -/
theorem create_edge_succeeds_without_endpoints_witness :
    (db0.edges.any (fun e => e.id == "E-1") = false) ∧
    ((create_edge db0 "A" "B" "references" "" "E-1").2 = none ∧
     (create_edge db0 "A" "B" "references" "" "E-1").1.edges =
       db0.edges ++ [⟨"E-1", "A", "B", "references", ""⟩]) :=
  ⟨rfl, create_edge_succeeds_without_endpoints db0 "A" "B" "references" "" "E-1" rfl⟩

/-! ## C2: store operations are not atomic across record and node inserts -/

/-- Claim C2, counterexample: storing `E1` twice, the second `store_entity`
fails (duplicate id), yet the node `N-2` created for the failed attempt
remains committed while no entity row references it — a partially-created
node IS observable after the failure, refuting the claimed single atomic unit
of work. -/
theorem store_entity_orphan_node_cex :
    ((store_entity dbE1 "E1" "beta" none "N-2").2).isSome = true ∧
    ((store_entity dbE1 "E1" "beta" none "N-2").1.nodes.any
       (fun n => n.id == "N-2")) = true ∧
    ((store_entity dbE1 "E1" "beta" none "N-2").1.entities.any
       (fun r => r.node_id == "N-2")) = false :=
  ⟨rfl, rfl, rfl⟩

/-- Claim C2, amended: the node insert and the record insert of a store
operation are two SEPARATE committed transactions, with the node committed
first; when the record insert then fails on a duplicate id, the error is
surfaced but the freshly inserted node row persists as an orphan (shown here
for `store_entity`; `store_file` has the same shape). -/
theorem store_not_atomic (db : DB) (e_id nm : String) (sn : Option String) (nid : String)
    (hnode : db.nodes.any (fun n => n.id == nid) = false)
    (hdup : db.entities.any (fun r => r.id == e_id) = true) :
    (store_entity db e_id nm sn nid).2.isSome = true ∧
    (store_entity db e_id nm sn nid).1.entities = db.entities ∧
    (store_entity db e_id nm sn nid).1.nodes =
      db.nodes ++ [⟨nid, "entities", e_id,
        build_entity_searchable_content ⟨some nm, sn⟩, db.clock⟩] := by
  simp [store_entity, create_node, buildSearchable, hnode, hdup]

/-- Witness for the amended C2 theorem at a concrete input. -/
theorem store_not_atomic_witness :
    (dbE1.nodes.any (fun n => n.id == "N-2") = false) ∧
    (dbE1.entities.any (fun r => r.id == "E1") = true) ∧
    ((store_entity dbE1 "E1" "beta" none "N-2").2.isSome = true ∧
     (store_entity dbE1 "E1" "beta" none "N-2").1.entities = dbE1.entities ∧
     (store_entity dbE1 "E1" "beta" none "N-2").1.nodes =
       dbE1.nodes ++ [⟨"N-2", "entities", "E1",
         build_entity_searchable_content ⟨some "beta", none⟩, dbE1.clock⟩]) :=
  ⟨rfl, rfl, store_not_atomic dbE1 "E1" "beta" none "N-2" rfl rfl⟩

/-! ## C5: duplicate entity id is rejected, first entity untouched -/

/-- Claim C5: storing an entity whose explicit id already exists fails with
the duplicate-identifier error, and the entities table — hence the first
entity with that id and its `name` and `short_name` — is unchanged by the
failed attempt. -/
theorem store_entity_duplicate_rejected (db : DB) (e_id nm : String)
    (sn : Option String) (nid : String)
    (hdup : db.entities.any (fun r => r.id == e_id) = true)
    (hnode : db.nodes.any (fun n => n.id == nid) = false) :
    (store_entity db e_id nm sn nid).2 =
      some ("Entity ID " ++ e_id ++ " already exists") ∧
    (store_entity db e_id nm sn nid).1.entities = db.entities := by
  simp [store_entity, create_node, buildSearchable, hnode, hdup]

/-- Witness for the C5 theorem at a concrete input. -/
theorem store_entity_duplicate_rejected_witness :
    (dbE1.entities.any (fun r => r.id == "E1") = true) ∧
    (dbE1.nodes.any (fun n => n.id == "N-3") = false) ∧
    ((store_entity dbE1 "E1" "gamma" (some "g") "N-3").2 =
       some ("Entity ID " ++ "E1" ++ " already exists") ∧
     (store_entity dbE1 "E1" "gamma" (some "g") "N-3").1.entities = dbE1.entities) :=
  ⟨rfl, rfl, store_entity_duplicate_rejected dbE1 "E1" "gamma" (some "g") "N-3" rfl rfl⟩

/-! ## C8: searchable-content builders and empty fields -/

/-- The searchable content as the specification claims it is built: the
searchable field values joined with single spaces, OMITTING every empty or
absent field. -/
def claim_searchable (fields : List String) : String :=
  String.intercalate " " (fields.filter (fun s => s != ""))

/-- The specification-claimed content for an entity (searchable fields:
`name`, `short_name`; an absent field contributes the empty string and is then
omitted). -/
def claim_entity_searchable (d : EntityData) : String :=
  claim_searchable [d.name.getD "", d.short_name.getD ""]

/-- Claim C8, counterexample: for an entity whose `name` is absent and whose
`short_name` is `"x"`, the builder produces `" x"` — the empty `name` field
still contributes a space separator — while the claimed rule produces `"x"`. -/
theorem builder_keeps_empty_primary_cex :
    build_entity_searchable_content ⟨none, some "x"⟩ = " x" ∧
    claim_entity_searchable ⟨none, some "x"⟩ = "x" ∧
    build_entity_searchable_content ⟨none, some "x"⟩ ≠
      claim_entity_searchable ⟨none, some "x"⟩ := by
  refine ⟨rfl, rfl, ?_⟩
  decide

theorem appendTruthy_eq (parts : List String) (o : Option String) :
    appendTruthy parts o = parts ++ ([o.getD ""].filter (fun s => s != "")) := by
  cases o with
  | none => simp [appendTruthy]
  | some s =>
    by_cases h : s = ""
    · subst h; simp [appendTruthy]
    · simp [appendTruthy, h]

/-- The amended C8 joining rule: the primary field value is ALWAYS included
(even when empty or absent, in which case it contributes a leading separator),
and only the optional fields are omitted when empty or absent. -/
def joinedWithPrimary (primary : String) (opts : List String) : String :=
  String.intercalate " " (primary :: opts.filter (fun s => s != ""))

/-- Claim C8, amended: each registered builder joins with single spaces the
list made of the type's primary searchable field (`name` / `type` /
`file_path`) taken unconditionally — empty or absent alike — followed by only
those optional fields (`short_name` / `subject`, `detail` / `description`)
that are nonempty and present. -/
theorem builders_primary_always_included (d : EntityData) (a : AttrData) (f : FileData) :
    build_entity_searchable_content d =
      joinedWithPrimary (d.name.getD "") [d.short_name.getD ""] ∧
    build_attribute_searchable_content a =
      joinedWithPrimary (a.atype.getD "") [a.subject.getD "", a.detail.getD ""] ∧
    build_file_searchable_content f =
      joinedWithPrimary (f.file_path.getD "") [f.description.getD ""] := by
  refine ⟨?_, ?_, ?_⟩
  · simp only [build_entity_searchable_content, joinedWithPrimary, appendTruthy_eq]
    simp
  · simp only [build_attribute_searchable_content, joinedWithPrimary, appendTruthy_eq]
    congr 1
    rw [show ([a.subject.getD "", a.detail.getD ""] : List String) =
          [a.subject.getD ""] ++ [a.detail.getD ""] from rfl,
        List.filter_append]
    simp
  · simp only [build_file_searchable_content, joinedWithPrimary, appendTruthy_eq]
    simp

/-! ## C9: storing an attribute for a nonexistent target -/

/-- Claim C9: when no entity has id `attr_id`, `store_attribute` does not
fail: it inserts the attribute record under the fresh id
`attr_id ++ "-" ++ suffix` and creates no edge, leaving the attribute
unlinked. -/
theorem store_attribute_unlinked_ok (db : DB)
    (attr_id ty su de suffix nid eid : String)
    (hent : db.entities.any (fun r => r.id == attr_id) = false)
    (hnode : db.nodes.any (fun n => n.id == nid) = false)
    (hattr : db.attributes.any (fun a => a.id == (attr_id ++ "-" ++ suffix)) = false) :
    (store_attribute db attr_id ty su de suffix nid eid).2 = none ∧
    (store_attribute db attr_id ty su de suffix nid eid).1.attributes =
      db.attributes ++ [⟨attr_id ++ "-" ++ suffix, ty, some su, some de, nid⟩] ∧
    (store_attribute db attr_id ty su de suffix nid eid).1.edges = db.edges := by
  have hfind : db.entities.find? (fun r => r.id == attr_id) = none := by
    rw [List.find?_eq_none]
    intro x hx
    have h := List.any_eq_false.mp hent x hx
    simpa using h
  simp [store_attribute, create_node, buildSearchable, hnode, hattr, hfind]

/-- Witness for the C9 theorem at a concrete input. -/
theorem store_attribute_unlinked_ok_witness :
    (db0.entities.any (fun r => r.id == "X9") = false) ∧
    (db0.nodes.any (fun n => n.id == "N-9") = false) ∧
    (db0.attributes.any (fun a => a.id == ("X9" ++ "-" ++ "abc12345")) = false) ∧
    ((store_attribute db0 "X9" "fact" "color" "red" "abc12345" "N-9" "E-9").2 = none ∧
     (store_attribute db0 "X9" "fact" "color" "red" "abc12345" "N-9" "E-9").1.attributes =
       db0.attributes ++ [⟨"X9" ++ "-" ++ "abc12345", "fact", some "color", some "red", "N-9"⟩] ∧
     (store_attribute db0 "X9" "fact" "color" "red" "abc12345" "N-9" "E-9").1.edges =
       db0.edges) :=
  ⟨rfl, rfl, rfl,
   store_attribute_unlinked_ok db0 "X9" "fact" "color" "red" "abc12345" "N-9" "E-9"
     rfl rfl rfl⟩

/-! ## Traversal lemmas (C4, C6) -/

theorem setNeighbors_union (db : DB) (s t : Finset String) :
    setNeighbors db (s ∪ t) = setNeighbors db s ∪ setNeighbors db t := by
  ext x
  simp only [setNeighbors, Finset.mem_biUnion, Finset.mem_union]
  constructor
  · rintro ⟨a, ha | ha, hx⟩
    · exact Or.inl ⟨a, ha, hx⟩
    · exact Or.inr ⟨a, ha, hx⟩
  · rintro (⟨a, ha, hx⟩ | ⟨a, ha, hx⟩)
    · exact ⟨a, Or.inl ha, hx⟩
    · exact ⟨a, Or.inr ha, hx⟩

theorem setNeighbors_mono (db : DB) {s t : Finset String} (h : s ⊆ t) :
    setNeighbors db s ⊆ setNeighbors db t :=
  Finset.biUnion_subset_biUnion_of_subset_left _ h

theorem setNeighbors_subset_split (db : DB) (C V : Finset String) :
    setNeighbors db C ⊆ setNeighbors db (C \ V) ∪ setNeighbors db V := by
  have h : setNeighbors db C ⊆ setNeighbors db (C \ V) ∪ setNeighbors db (C ∩ V) := by
    rw [← setNeighbors_union, Finset.sdiff_union_inter]
  exact h.trans (Finset.union_subset_union_right
    (setNeighbors_mono db Finset.inter_subset_right))

theorem ball_succ (db : DB) (seed : String) (k : Nat) :
    ball db seed (k + 1) = ball db seed k ∪ setNeighbors db (ball db seed k) := rfl

theorem loopState_succ (db : DB) (seed : String) (k : Nat) :
    loopState db seed (k + 1) =
      ((loopState db seed k).1 ∪
         setNeighbors db ((loopState db seed k).2.2 \ (loopState db seed k).2.1),
       (loopState db seed k).2.1 ∪
         ((loopState db seed k).2.2 \ (loopState db seed k).2.1),
       setNeighbors db ((loopState db seed k).2.2 \ (loopState db seed k).2.1)) := rfl

/-- The three loop invariants of the traversal of `get_related_nodes`: the
neighbors of the visited set stay inside visited-or-frontier, visited together
with the frontier is exactly the ball of radius `k`, and the accumulated
related set is exactly the neighbor set of the visited set. -/
theorem loop_invariant (db : DB) (seed : String) (k : Nat) :
    setNeighbors db (loopState db seed k).2.1 ⊆
      (loopState db seed k).2.1 ∪ (loopState db seed k).2.2 ∧
    (loopState db seed k).2.1 ∪ (loopState db seed k).2.2 = ball db seed k ∧
    (loopState db seed k).1 = setNeighbors db (loopState db seed k).2.1 := by
  induction k with
  | zero =>
    refine ⟨?_, ?_, ?_⟩
    · simp [loopState, setNeighbors]
    · simp [loopState, ball]
    · simp [loopState, setNeighbors]
  | succ k ih =>
    obtain ⟨ih1, ih2, ih3⟩ := ih
    rw [loopState_succ]
    simp only
    have hVC : (loopState db seed k).2.1 ∪
        ((loopState db seed k).2.2 \ (loopState db seed k).2.1) =
        (loopState db seed k).2.1 ∪ (loopState db seed k).2.2 :=
      Finset.union_sdiff_self_eq_union
    have hCV : (loopState db seed k).2.2 \ (loopState db seed k).2.1 ⊆
        ball db seed k := by
      rw [← ih2]
      exact Finset.sdiff_subset.trans Finset.subset_union_right
    have hNsplit : setNeighbors db (loopState db seed k).2.2 ⊆
        setNeighbors db ((loopState db seed k).2.2 \ (loopState db seed k).2.1) ∪
          setNeighbors db (loopState db seed k).2.1 :=
      setNeighbors_subset_split db _ _
    refine ⟨?_, ?_, ?_⟩
    · rw [hVC, setNeighbors_union]
      apply Finset.union_subset
      · exact ih1.trans Finset.subset_union_left
      · apply hNsplit.trans
        apply Finset.union_subset
        · exact Finset.subset_union_right
        · exact ih1.trans Finset.subset_union_left
    · rw [hVC, ih2, ball_succ]
      apply Finset.Subset.antisymm
      · apply Finset.union_subset Finset.subset_union_left
        exact (setNeighbors_mono db hCV).trans Finset.subset_union_right
      · apply Finset.union_subset Finset.subset_union_left
        rw [← ih2, setNeighbors_union]
        apply Finset.union_subset
        · exact ih1.trans Finset.subset_union_left
        · apply hNsplit.trans
          apply Finset.union_subset
          · exact Finset.subset_union_right
          · exact ih1.trans Finset.subset_union_left
    · rw [hVC, ih3, setNeighbors_union]
      apply Finset.Subset.antisymm
      · apply Finset.union_subset Finset.subset_union_left
        exact (setNeighbors_mono db Finset.sdiff_subset).trans Finset.subset_union_right
      · apply Finset.union_subset Finset.subset_union_left
        apply hNsplit.trans
        apply Finset.union_subset
        · exact Finset.subset_union_right
        · exact Finset.subset_union_left

/-- Claim C4, amended: for every database, seed and depth, the related set
computed by `get_related_nodes` equals `relatedSpec`: empty at depth `0`, and
for depth `D ≥ 1` the set of all neighbors (in either direction) of nodes
within `D - 1` hops of the seed — which contains every node at distance
`1..D` but also the seed itself whenever an edge leads back to it (e.g. a
self-loop, or any incident edge once `D ≥ 2`). -/
theorem get_related_nodes_spec (db : DB) (seed : String) (D : Nat) :
    relatedSet db seed D = relatedSpec db seed D := by
  cases D with
  | zero => rfl
  | succ k =>
    obtain ⟨-, -, ih3⟩ := loop_invariant db seed (k + 1)
    obtain ⟨-, ih2, -⟩ := loop_invariant db seed k
    have hV : (loopState db seed (k + 1)).2.1 = ball db seed k := by
      have h1 : (loopState db seed (k + 1)).2.1 =
          (loopState db seed k).2.1 ∪
            ((loopState db seed k).2.2 \ (loopState db seed k).2.1) := rfl
      rw [h1, Finset.union_sdiff_self_eq_union, ih2]
    show (loopState db seed (k + 1)).1 = setNeighbors db (ball db seed k)
    rw [ih3, hV]

/-- Database with a single node `A` carrying a self-loop edge. -/
def dbLoop : DB :=
  ⟨[], [], [], [⟨"A", "entities", "e1", "alpha", 0⟩],
   [⟨"E-1", "A", "A", "references", ""⟩], 1⟩

/-- Claim C4, counterexample: on a self-loop `A→A` at depth `1`, the computed
related set is `{A}` — it contains the seed — whereas the claimed set
(reachable within `1` hop minus the seed) is empty; `get_related_nodes`
accordingly returns the seed's own node row as "related". -/
theorem related_includes_seed_cex :
    "A" ∈ relatedSet dbLoop "A" 1 ∧
    "A" ∉ claimRelated dbLoop "A" 1 ∧
    relatedSet dbLoop "A" 1 ≠ claimRelated dbLoop "A" 1 ∧
    get_related_nodes dbLoop "A" 1 = [⟨"A", "entities", "e1", "alpha", 0⟩] := by
  refine ⟨by decide, by decide, ?_, by decide⟩
  intro h
  exact absurd (h ▸ (show "A" ∈ relatedSet dbLoop "A" 1 by decide))
    (by decide : "A" ∉ claimRelated dbLoop "A" 1)

theorem visited_subset_succ (db : DB) (seed : String) (k : Nat) :
    (loopState db seed k).2.1 ⊆ (loopState db seed (k + 1)).2.1 := by
  intro x hx
  have h : (loopState db seed (k + 1)).2.1 =
      (loopState db seed k).2.1 ∪
        ((loopState db seed k).2.2 \ (loopState db seed k).2.1) := rfl
  rw [h]
  exact Finset.mem_union_left _ hx

theorem visited_mono (db : DB) (seed : String) {j k : Nat} (h : j ≤ k) :
    (loopState db seed j).2.1 ⊆ (loopState db seed k).2.1 := by
  induction h with
  | refl => exact Finset.Subset.refl _
  | step _ ih => exact ih.trans (visited_subset_succ db seed _)

/-- Claim C6: the traversal of `get_related_nodes` expands no node more than
once — the sets of nodes expanded at two different iterations are disjoint —
for every graph, including cyclic ones (and it terminates by construction:
the loop runs exactly `max_depth` bounded iterations). -/
theorem traversal_expands_once (db : DB) (seed : String) (j k : Nat) (hjk : j < k) :
    expandedAt db seed j ∩ expandedAt db seed k = ∅ := by
  rw [Finset.eq_empty_iff_forall_not_mem]
  intro x hx
  rw [Finset.mem_inter] at hx
  obtain ⟨hxj, hxk⟩ := hx
  have hV : x ∈ (loopState db seed (j + 1)).2.1 := by
    have h : (loopState db seed (j + 1)).2.1 =
        (loopState db seed j).2.1 ∪
          ((loopState db seed j).2.2 \ (loopState db seed j).2.1) := rfl
    rw [h]
    exact Finset.mem_union_right _ hxj
  have hVk : x ∈ (loopState db seed k).2.1 := visited_mono db seed hjk hV
  exact (Finset.mem_sdiff.mp hxk).2 hVk

/-- Database with the cycle `A→B→A`. -/
def dbCycle : DB :=
  ⟨[], [], [],
   [⟨"A", "entities", "e1", "alpha", 0⟩, ⟨"B", "entities", "e2", "beta", 1⟩],
   [⟨"E-1", "A", "B", "references", ""⟩, ⟨"E-2", "B", "A", "references", ""⟩], 2⟩

/-- Witness for the C6 theorem on a concrete cyclic graph. -/
theorem traversal_expands_once_witness :
    (0 < 2) ∧ expandedAt dbCycle "A" 0 ∩ expandedAt dbCycle "A" 2 = ∅ :=
  ⟨by decide, traversal_expands_once dbCycle "A" 0 2 (by decide)⟩

/-! ## C3: no exact-id fast path in search -/

/-- Two entities, the second of which mentions the id of the first in its
name (hence in its searchable content). -/
def db3 : DB :=
  ⟨[⟨"e1", "alpha", none, "N-1"⟩, ⟨"x2", "e1", none, "N-2"⟩], [], [],
   [⟨"N-1", "entities", "e1", "alpha", 0⟩, ⟨"N-2", "entities", "x2", "e1", 1⟩],
   [], 2⟩

/-- Claim C3, counterexample: the query `"e1"` exactly equals the id of an
existing record, yet `search_records` returns TWO results (the record `e1`
and the record `x2`, whose content matches the same token) — the claimed
exact-ID fast path returning a sole match does not exist. -/
theorem search_no_exact_id_fast_path_cex :
    (db3.entities.any (fun r => r.id == "e1")) = true ∧
    (search_records db3 "e1").length = 2 :=
  ⟨rfl, rfl⟩

/-- Claim C3, amended: a query equal to an existing record identifier goes
through the ordinary full-text matching of `search_records` like any other
query: every node matching the query — the record with that id via its
`record_id` column, but equally any other record whose searchable content
matches — contributes its resolved record to the result list, with no
sole-match or priority guarantee. -/
theorem search_exact_id_among_results (db : DB) (q : String) (n : Node)
    (hq : isBlank q = false)
    (hn : n ∈ db.nodes)
    (hmatch : ftsMatchNode q n = true)
    (r : RecordOut)
    (hr : r ∈ get_record_data db n.table_name n.record_id n.searchable_content) :
    r ∈ search_records db q := by
  rw [search_records, hq, if_neg Bool.false_ne_true]
  rw [List.mem_flatMap]
  exact ⟨n, List.mem_filter.mpr ⟨hn, hmatch⟩, hr⟩

/-- Witness for the amended C3 theorem: the exact-id query `"e1"` does return
the record with id `e1` among its results. -/
theorem search_exact_id_among_results_witness :
    (isBlank "e1" = false) ∧
    ((⟨"N-1", "entities", "e1", "alpha", 0⟩ : Node) ∈ db3.nodes) ∧
    (ftsMatchNode "e1" ⟨"N-1", "entities", "e1", "alpha", 0⟩ = true) ∧
    ((⟨"entity", "e1", "alpha", none, "alpha", "alpha"⟩ : RecordOut) ∈
       get_record_data db3 "entities" "e1" "alpha") ∧
    (⟨"entity", "e1", "alpha", none, "alpha", "alpha"⟩ : RecordOut) ∈
      search_records db3 "e1" :=
  ⟨by decide, by decide, by decide, by decide,
   search_exact_id_among_results db3 "e1" ⟨"N-1", "entities", "e1", "alpha", 0⟩
     (by decide) (by decide) (by decide)
     ⟨"entity", "e1", "alpha", none, "alpha", "alpha"⟩ (by decide)⟩

/-! ## C7: empty or whitespace-only query falls back to recent records -/

/-- Claim C7: an empty or whitespace-only query makes `search_records` return
`get_recent_records 10` — the records of the `10` most recently created nodes
(the insertion sort by descending `created_at` is a sorted permutation of the
nodes table) — and, when at least one record exists (at least one node, each
node resolving to its record), the result is nonempty rather than an error or
an empty list. -/
theorem empty_query_recent_records (db : DB) (q : String)
    (hq : isBlank q = true)
    (hne : db.nodes ≠ [])
    (hres : ∀ n ∈ db.nodes,
      get_record_data db n.table_name n.record_id n.searchable_content ≠ []) :
    search_records db q = get_recent_records db 10 ∧
    (List.insertionSort recGE db.nodes).Perm db.nodes ∧
    List.Sorted recGE (List.insertionSort recGE db.nodes) ∧
    get_recent_records db 10 ≠ [] := by
  refine ⟨?_, List.perm_insertionSort recGE db.nodes,
    List.sorted_insertionSort recGE db.nodes, ?_⟩
  · rw [search_records, hq, if_pos rfl]
  · have hperm := List.perm_insertionSort recGE db.nodes
    have hlne : List.insertionSort recGE db.nodes ≠ [] := by
      intro h0
      rw [h0] at hperm
      exact hne (hperm.symm.eq_nil)
    obtain ⟨y, ys, hys⟩ := List.exists_cons_of_ne_nil hlne
    have hymem : y ∈ db.nodes := hperm.subset (by rw [hys]; exact List.mem_cons_self y ys)
    have hfy := hres y hymem
    rw [get_recent_records, hys]
    have htake : (y :: ys).take 10 = y :: ys.take 9 := rfl
    rw [htake]
    intro hcontra
    have happ : get_record_data db y.table_name y.record_id y.searchable_content ++
        (ys.take 9).flatMap
          (fun n => get_record_data db n.table_name n.record_id n.searchable_content) =
        [] := hcontra
    exact hfy (List.append_eq_nil.mp happ).1

/-- Witness for the C7 theorem: a whitespace query on a database holding one
entity returns that entity. -/
theorem empty_query_recent_records_witness :
    (isBlank " " = true) ∧
    (dbE1.nodes ≠ []) ∧
    (∀ n ∈ dbE1.nodes,
      get_record_data dbE1 n.table_name n.record_id n.searchable_content ≠ []) ∧
    (search_records dbE1 " " = get_recent_records dbE1 10 ∧
     (List.insertionSort recGE dbE1.nodes).Perm dbE1.nodes ∧
     List.Sorted recGE (List.insertionSort recGE dbE1.nodes) ∧
     get_recent_records dbE1 10 ≠ []) :=
  ⟨by decide, by decide, by decide,
   empty_query_recent_records dbE1 " " (by decide) (by decide) (by decide)⟩

/-! ## C10: entity context returns every attribute in the database -/

/-- Claim C10: for an existing entity id, `get_entity_context` succeeds and
its attributes list is a permutation of the ENTIRE attributes table (not only
the attributes linked to that entity), sorted by `type` then `subject`; for a
nonexistent entity id it raises an error. -/
theorem get_entity_context_all_attributes (db : DB) (e_id : String) :
    ((db.entities.find? (fun r => r.id == e_id)).isSome = true →
      ∃ ctx, get_entity_context db e_id = Except.ok ctx ∧
        ctx.attributes.Perm db.attributes ∧
        List.Sorted attrLE ctx.attributes) ∧
    (db.entities.find? (fun r => r.id == e_id) = none →
      ∃ msg, get_entity_context db e_id = Except.error msg) := by
  constructor
  · intro h
    cases hfind : db.entities.find? (fun r => r.id == e_id) with
    | none => rw [hfind] at h; simp at h
    | some ent =>
      refine ⟨⟨e_id, ent.name, ent.short_name, ent.node_id,
               List.insertionSort attrLE db.attributes⟩, ?_, ?_, ?_⟩
      · rw [get_entity_context, hfind]
      · exact List.perm_insertionSort attrLE db.attributes
      · exact List.sorted_insertionSort attrLE db.attributes
  · intro hfind
    exact ⟨"Entity ID " ++ e_id ++ " not found", by rw [get_entity_context, hfind]⟩

/-- Entity `E1` plus one attribute that is NOT linked to it (no edge, and the
attribute does not target `E1`). -/
def db10 : DB :=
  ⟨[⟨"E1", "alpha", none, "N-1"⟩],
   [⟨"Z9-ff", "fact", some "color", some "red", "N-2"⟩],
   [],
   [⟨"N-1", "entities", "E1", "alpha", 0⟩,
    ⟨"N-2", "attributes", "Z9-ff", "fact color red", 1⟩],
   [], 2⟩

/-- Witness for the C10 theorem: the context of `E1` contains the attribute
of the unrelated record `Z9`, and a missing id errors. -/
theorem get_entity_context_all_attributes_witness :
    ((db10.entities.find? (fun r => r.id == "E1")).isSome = true) ∧
    (db10.entities.find? (fun r => r.id == "ZZ") = none) ∧
    (∃ ctx, get_entity_context db10 "E1" = Except.ok ctx ∧
       ctx.attributes.Perm db10.attributes ∧
       List.Sorted attrLE ctx.attributes) ∧
    (∃ msg, get_entity_context db10 "ZZ" = Except.error msg) :=
  ⟨by decide, by decide,
   (get_entity_context_all_attributes db10 "E1").1 (by decide),
   (get_entity_context_all_attributes db10 "ZZ").2 (by decide)⟩

end Bonnet
